import Mathlib

set_option maxHeartbeats 1000000

/-
Shallow embedding of the synthetic load generator and the gRPC request
handler of the fake-service repository.

Modelling conventions:
- Go float64 arithmetic is modelled as exact rational arithmetic; every
  float operation a theorem below depends on is exact in binary64 as well
  (multiplications by powers of two, subtractions of equal-exponent values,
  and divisions whose result the theorem only bounds monotonically).
- Go `int` (64-bit) is modelled as unbounded `Int`; the one place where the
  64-bit wrap of an intermediate product could matter (the tick-count
  derivation from the variance period) makes the wrap explicit via
  `int64wrap`.
- The conversion `int(f)` from float64 to int truncates toward zero;
  `truncToInt` is that conversion.
- `math.Sin` is modelled with `Real.sin` (noncomputable, as the real sine
  has no executable counterpart); no theorem below evaluates it.
- Sources of randomness (`rand.Intn(2)`, `rand.Float64()`) are passed as
  explicit arguments: a coin in `Fin 2` and a uniform draw `u : ℚ` with
  `0 ≤ u < 1`.
- Wall-clock reads, sleeps, logging and tracing calls are side effects with
  no influence on the computed values; they are dropped from the embedding,
  except that the duration controller's computed sleep amount is returned
  as data.
-/

/-- Go conversion from float64 to int: truncation toward zero. -/
def truncToInt {α : Type} [LinearOrderedRing α] [FloorRing α] (q : α) : ℤ :=
  if 0 ≤ q then ⌊q⌋ else ⌈q⌉

/-- Wrap an unbounded integer to the range of Go's int64. -/
def int64wrap (x : ℤ) : ℤ := (x + 2 ^ 63) % 2 ^ 64 - 2 ^ 63

namespace Load

/-- src/unnamed/part_000: TICK_INTERVAL = 500 * time.Millisecond, in
nanoseconds (time.Duration counts nanoseconds). -/
def TICK_INTERVAL : ℤ := 500000000

/-- src/unnamed/part_000 lines 35-43: the mutable phase state of the
generator.  The two time.Time fields (startTime, lastTickTime) are
wall-clock reads and carry no data any theorem uses; they are omitted. -/
structure NodeGeneratorState where
  baselineBytes : ℤ
  maxVarianceBytes : ℚ
  currentBytes : ℤ
  currentTick : ℤ
  ticksPerPeriod : ℤ
deriving DecidableEq

/-- src/unnamed/part_000 lines 22-33: the generator configuration plus the
running flag.  The logger and the finished channel are modelled separately
(the channel by the trace model further down). -/
structure NodeGenerator where
  cpuCoresCount : ℚ
  cpuPercentage : ℚ
  memoryMBytes : ℤ
  memoryVariance : ℤ
  memoryVarianceFun : String
  memoryVariancePeriod : ℤ
  running : Bool
  state : NodeGeneratorState
deriving DecidableEq

/-- src/unnamed/part_000 line 65: int(time.Duration(memoryVariancePeriod) *
time.Second / TICK_INTERVAL).  Duration arithmetic is int64 arithmetic on
nanoseconds; the division is Go's truncated division. -/
def ticksPerPeriodOf (p : ℤ) : ℤ :=
  Int.tdiv (int64wrap (int64wrap p * 1000000000)) TICK_INTERVAL

/-- src/unnamed/part_000 lines 48-69: NewNodeGenerator.
int(math.Pow(2, 20)) = 1048576 exactly; maxVarianceBytes =
math.Pow(2,20) * float64(memoryMBytes*memoryVariance) / 100 as a float,
modelled as the exact rational. -/
def NewNodeGenerator (cores percentage : ℚ) (memoryMBytes memoryVariance : ℤ)
    (memoryVarianceFun : String) (memoryVariancePeriod : ℤ) : NodeGenerator :=
  { cpuCoresCount := cores
    cpuPercentage := percentage
    memoryMBytes := memoryMBytes
    memoryVariance := memoryVariance
    memoryVarianceFun := memoryVarianceFun
    memoryVariancePeriod := memoryVariancePeriod
    running := false
    state :=
      { baselineBytes := memoryMBytes * 1048576
        maxVarianceBytes := 1048576 * ((memoryMBytes * memoryVariance : ℤ) : ℚ) / 100
        currentBytes := memoryMBytes * 1048576
        currentTick := 0
        ticksPerPeriod := ticksPerPeriodOf memoryVariancePeriod } }

/-- src/unnamed/part_000 lines 263-268: x() = float64(currentTick) /
float64(ticksPerPeriod), the phase in [0,1). -/
def x (g : NodeGenerator) : ℚ :=
  (g.state.currentTick : ℚ) / (g.state.ticksPerPeriod : ℚ)

/-- src/unnamed/part_000 lines 272-277: linearX() = float64(currentTick) /
float64(ticksPerPeriod - 1), the phase in [0,1] used by the linear model. -/
def linearX (g : NodeGenerator) : ℚ :=
  (g.state.currentTick : ℚ) / ((g.state.ticksPerPeriod - 1 : ℤ) : ℚ)

/-- src/unnamed/part_000 lines 284-286: tick() advances currentTick by one
modulo ticksPerPeriod (Go % is truncated remainder, Int.tmod). -/
def tick (g : NodeGenerator) : NodeGenerator :=
  { g with state :=
    { g.state with
      currentTick := Int.tmod (g.state.currentTick + 1) g.state.ticksPerPeriod } }

/-- src/unnamed/part_000 lines 161-172: varianceLinear.
lVal = 2*linearX()*maxVarianceBytes - maxVarianceBytes; delta = int(lVal). -/
def varianceLinear (g : NodeGenerator) : ℤ :=
  truncToInt (2 * linearX g * g.state.maxVarianceBytes - g.state.maxVarianceBytes)

/-- math.Copysign(x, s): the magnitude of x with the sign of s; s = +0 gives
the positive sign (float64(0) is +0). -/
def copysign (x s : ℚ) : ℚ := if s < 0 then -|x| else |x|

/-- src/unnamed/part_000 lines 174-187: varianceRandom, with the two random
draws passed explicitly: coin = rand.Intn(2) and u = rand.Float64() in
[0,1).  rSign = coin * -1; rPct = Copysign(u, float64(rSign));
delta = int(rPct * maxVarianceBytes). -/
def varianceRandom (g : NodeGenerator) (coin : Fin 2) (u : ℚ) : ℤ :=
  truncToInt (copysign u (((coin : ℕ) : ℚ) * (-1)) * g.state.maxVarianceBytes)

/-- src/unnamed/part_000 lines 189-205 with rad() from lines 234-236:
varianceSineWave: delta = int(math.Sin(2*pi*x()) * maxVarianceBytes). -/
noncomputable def varianceSineWave (g : NodeGenerator) : ℤ :=
  truncToInt (Real.sin (2 * Real.pi * ((x g : ℚ) : ℝ)) * ((g.state.maxVarianceBytes : ℚ) : ℝ))

/-- The four values the variance registry can select. -/
inductive VarianceChoice
  | zero
  | linear
  | random
  | sine
deriving DecidableEq

/-- src/unnamed/part_000 lines 207-222: getVarianceFuncByName.  Returns
varianceZero when memoryVariance == 0, otherwise switches on the model
name with varianceZero as the default (a Go switch on strings is an
equality chain). -/
def getVarianceFuncByName (g : NodeGenerator) : VarianceChoice :=
  if g.memoryVariance = 0 then VarianceChoice.zero
  else if g.memoryVarianceFun = "linear" then VarianceChoice.linear
  else if g.memoryVarianceFun = "random" then VarianceChoice.random
  else if g.memoryVarianceFun = "sine" then VarianceChoice.sine
  else VarianceChoice.zero

/-- Applying a selected variance function to the generator (the random
draws are threaded explicitly; varianceZero is fun _ => 0). -/
noncomputable def applyVariance : VarianceChoice → NodeGenerator → Fin 2 → ℚ → ℤ
  | VarianceChoice.zero, _, _, _ => 0
  | VarianceChoice.linear, g, _, _ => varianceLinear g
  | VarianceChoice.random, g, coin, u => varianceRandom g coin u
  | VarianceChoice.sine, g, _, _ => varianceSineWave g

/-- src/unnamed/part_000 lines 140-155: one iteration of the memory loop
body: newMemLen = state.currentBytes + delta(g) is the size allocated this
tick; state.currentBytes is set to newMemLen, then tick() advances the
phase.  Returns (the allocated size, the state after the iteration). -/
def memoryLoopStep (delta : NodeGenerator → ℤ) (g : NodeGenerator) : ℤ × NodeGenerator :=
  let newMemLen := g.state.currentBytes + delta g
  (newMemLen, tick { g with state := { g.state with currentBytes := newMemLen } })

/-- The generator state after n iterations of the memory loop. -/
def memoryLoopState (delta : NodeGenerator → ℤ) (g : NodeGenerator) : ℕ → NodeGenerator
  | 0 => g
  | n + 1 => (memoryLoopStep delta (memoryLoopState delta g n)).2

/-- The size allocated on iteration n (0-based) of the memory loop. -/
def allocAt (delta : NodeGenerator → ℤ) (g : NodeGenerator) (n : ℕ) : ℤ :=
  (memoryLoopStep delta (memoryLoopState delta g n)).1

/-- src/unnamed/part_000 line 74: make(chan struct\x7b\x7d, 2) - the
completion channel's buffer capacity. -/
def finishedChanCap : ℕ := 2

/-- src/unnamed/part_000 lines 82-87: the stop handle sends on the finished
channel exactly twice, unconditionally. -/
def stopSignalsSent : ℕ := 2

/-- The number of loops Generate() starts, each of which later consumes one
finished signal: the memory loop always (line 79), plus the CPU supervisor
goroutine unless cpuCoresCount == 0 (lines 91-94). -/
def loopsStarted (cores : ℚ) : ℕ := 1 + (if cores = 0 then 0 else 1)

/-- src/unnamed/part_000 line 109: unitHundredsOfMicrosecond = 1000. -/
def unitHundredsOfMicrosecond : ℚ := 1000

/-- src/unnamed/part_000 line 110: runMicrosecond =
unitHundredsOfMicrosecond * cpuPercentage, the busy-wait length of one duty
cycle in microseconds. -/
def runMicrosecond (pct : ℚ) : ℚ := unitHundredsOfMicrosecond * pct

/-- src/unnamed/part_000 line 111: sleepMicrosecond =
unitHundredsOfMicrosecond*100 - runMicrosecond. -/
def sleepMicrosecond (pct : ℚ) : ℚ := unitHundredsOfMicrosecond * 100 - runMicrosecond pct

/-- One duty-cycle unit interval (run + sleep), in microseconds: the code's
unitHundredsOfMicrosecond*100 = 100000 microseconds = 100 ms. -/
def unitIntervalMicrosecond : ℚ := 100000

/-- An operation on the finished channel: a send (only the stop handle
sends) or a receive (a loop draining its signal). -/
inductive ChanOp
  | send
  | recv
deriving DecidableEq

/-- The number of sends in a channel trace. -/
def sendCount : List ChanOp → ℕ
  | [] => 0
  | ChanOp.send :: rest => sendCount rest + 1
  | ChanOp.recv :: rest => sendCount rest

/-- Buffered messages after running a trace from b buffered messages: a
send buffers one, a receive drains one (a receive on an empty buffer
blocks, so it drains at most what is there - Nat subtraction). -/
def bufFrom : ℕ → List ChanOp → ℕ
  | b, [] => b
  | b, ChanOp.send :: rest => bufFrom (b + 1) rest
  | b, ChanOp.recv :: rest => bufFrom (b - 1) rest

/-- Buffered messages after a trace on the freshly made channel of
Generate() (line 74), which starts empty. -/
def bufAfter (ops : List ChanOp) : ℕ := bufFrom 0 ops

end Load

namespace LoadV1

/-
src/load/node_generator.go: the older variant of the same generator.  Its
variance functions return the absolute allocation size for the next tick
(not a signed delta) and read or write the flat fields currentMemory /
currentTick directly.
-/

/-- src/load/node_generator.go lines 19-31. -/
structure NodeGenerator where
  cpuCoresCount : ℚ
  cpuPercentage : ℚ
  memoryMBytes : ℤ
  memoryVariance : ℤ
  memoryVarianceFun : String
  memoryVariancePeriod : ℤ
  running : Bool
  currentMemory : ℤ
  currentTick : ℤ
deriving DecidableEq

/-- src/load/node_generator.go lines 141-143: varianceLinear returns
currentMemory unchanged. -/
def varianceLinear (g : NodeGenerator) : ℤ × NodeGenerator := (g.currentMemory, g)

/-- src/load/node_generator.go lines 145-168: varianceRandom.  When
memoryVariance > 0: fMemoryBytes = float64(memoryMBytes)*2^20;
rPct = u*2 - 1; varyByPct = float64(memoryVariance)*rPct/100;
newValue = int(fMemoryBytes + fMemoryBytes*varyByPct).  Otherwise
currentMemory is returned unchanged. -/
def varianceRandom (g : NodeGenerator) (u : ℚ) : ℤ × NodeGenerator :=
  if 0 < g.memoryVariance then
    (truncToInt ((g.memoryMBytes : ℚ) * 1048576 +
      ((g.memoryMBytes : ℚ) * 1048576) * ((g.memoryVariance : ℚ) * (u * 2 - 1) / 100)), g)
  else (g.currentMemory, g)

/-- src/load/node_generator.go lines 170-197: varianceSineWave.  When
memoryVariance > 0 it advances currentTick (wrapping before
ticksPerPeriod = int(period seconds / TICK_INTERVAL)) and returns
currentMemory; the sine value it computes feeds only the log line and never
the returned value, so it is not modelled.  Otherwise currentMemory is
returned unchanged. -/
def varianceSineWave (g : NodeGenerator) : ℤ × NodeGenerator :=
  if 0 < g.memoryVariance then
    let ticksPerPeriod :=
      Int.tdiv (int64wrap (int64wrap g.memoryVariancePeriod * 1000000000)) 500000000
    let g2 := if g.currentTick + 1 < ticksPerPeriod then
        { g with currentTick := g.currentTick + 1 }
      else { g with currentTick := 0 }
    (g2.currentMemory, g2)
  else (g.currentMemory, g)

/-- The three functions this variant's registry can select. -/
inductive Choice
  | linear
  | random
  | sine
deriving DecidableEq

/-- src/load/node_generator.go lines 199-210: getVarianceFuncByName; the
default of the switch is varianceLinear. -/
def getVarianceFuncByName (name : String) : Choice :=
  if name = "linear" then Choice.linear
  else if name = "random" then Choice.random
  else if name = "sine" then Choice.sine
  else Choice.linear

/-- Applying a selected variance function (the random draw is threaded
explicitly). -/
def applyVariance : Choice → NodeGenerator → ℚ → ℤ × NodeGenerator
  | Choice.linear, g, _ => varianceLinear g
  | Choice.random, g, u => varianceRandom g u
  | Choice.sine, g, _ => varianceSineWave g

end LoadV1

namespace Handlers

/-- The three ways src/handlers/request_grpc.go Handle can answer: the
injected error (lines 81-94), the aggregated upstream failure (lines
123-135), or the success response (lines 137-166). -/
inductive GrpcResult
  | injectedError (code : ℤ)
  | upstreamFailure (msg : String)
  | success
deriving DecidableEq

/-- What Handle did: its result and how long it slept (nanoseconds). -/
structure HandleOutcome where
  result : GrpcResult
  sleptNanos : ℤ
deriving DecidableEq

/-- src/handlers/request_grpc.go lines 65-166, with the externally supplied
quantities as arguments: injectedErr is what errorInjector.Do() yields,
upstreamError the aggregate error of the worker pool fan-out, d the target
duration from duration.Calculate() and et the wall-clock time elapsed since
the request began (both in nanoseconds).  An injected error returns before
the fan-out and the duration logic; rd = d - et; a non-nil upstream error
returns before the sleep; otherwise the handler sleeps rd when rd > 0 and
not at all when rd <= 0, and returns the success response. -/
def Handle (injectedErr : Option ℤ) (upstreamError : Option String) (d et : ℤ) : HandleOutcome :=
  match injectedErr with
  | some code => { result := GrpcResult.injectedError code, sleptNanos := 0 }
  | none =>
    let rd := d - et
    match upstreamError with
    | some msg => { result := GrpcResult.upstreamFailure msg, sleptNanos := 0 }
    | none => { result := GrpcResult.success, sleptNanos := if 0 < rd then rd else 0 }

end Handlers

lemma truncToInt_eq_floor {q : ℚ} (h : 0 ≤ q) : truncToInt q = ⌊q⌋ := if_pos h

lemma truncToInt_mem_Icc {q m : ℚ} (hm : 0 ≤ m) (h1 : -m ≤ q) (h2 : q ≤ m) :
    -m ≤ (truncToInt q : ℚ) ∧ (truncToInt q : ℚ) ≤ m := by
  unfold truncToInt
  by_cases h : 0 ≤ q
  · rw [if_pos h]
    have hf : (0 : ℚ) ≤ (⌊q⌋ : ℤ) := by exact_mod_cast Int.floor_nonneg.mpr h
    have hle : ((⌊q⌋ : ℤ) : ℚ) ≤ q := Int.floor_le q
    constructor <;> linarith
  · rw [if_neg h]
    push_neg at h
    have hc : ((⌈q⌉ : ℤ) : ℚ) ≤ 0 := by
      exact_mod_cast Int.ceil_le.mpr (by exact_mod_cast h.le : q ≤ ((0 : ℤ) : ℚ))
    have hge : q ≤ ((⌈q⌉ : ℤ) : ℚ) := Int.le_ceil q
    constructor <;> linarith

lemma truncToInt_mem_Ioo {q m : ℚ} (hm : 0 < m) (h1 : -m < q) (h2 : q < m) :
    -m < (truncToInt q : ℚ) ∧ (truncToInt q : ℚ) < m := by
  unfold truncToInt
  by_cases h : 0 ≤ q
  · rw [if_pos h]
    have hf : (0 : ℚ) ≤ (⌊q⌋ : ℤ) := by exact_mod_cast Int.floor_nonneg.mpr h
    have hle : ((⌊q⌋ : ℤ) : ℚ) ≤ q := Int.floor_le q
    constructor <;> linarith
  · rw [if_neg h]
    push_neg at h
    have hc : ((⌈q⌉ : ℤ) : ℚ) ≤ 0 := by
      exact_mod_cast Int.ceil_le.mpr (by exact_mod_cast h.le : q ≤ ((0 : ℤ) : ℚ))
    have hge : q ≤ ((⌈q⌉ : ℤ) : ℚ) := Int.le_ceil q
    constructor <;> linarith

lemma truncToInt_neg_eq {m : ℚ} (hm : 0 ≤ m) : truncToInt (-m) = -⌊m⌋ := by
  unfold truncToInt
  by_cases h : 0 ≤ -m
  · have hm0 : m = 0 := le_antisymm (by linarith) hm
    rw [hm0]
    norm_num
  · rw [if_neg h, Int.ceil_neg]

lemma bufFrom_le_sendCount :
    ∀ (ops : List Load.ChanOp) (b : ℕ), Load.bufFrom b ops ≤ b + Load.sendCount ops := by
  intro ops
  induction ops with
  | nil => intro b; simp [Load.bufFrom, Load.sendCount]
  | cons op rest ih =>
    intro b
    cases op with
    | send =>
      have := ih (b + 1)
      simp only [Load.bufFrom, Load.sendCount]
      omega
    | recv =>
      have := ih (b - 1)
      simp only [Load.bufFrom, Load.sendCount]
      omega

/-- C1: evaluation of the memory loop at a concrete configuration
(1 MiB baseline, 100 percent variance, linear model, 1 second period,
so maxVarianceBytes = 1048576 and ticksPerPeriod = 2).  The loop computes
newMemLen = currentBytes + delta and carries currentBytes across ticks: on
the second iteration (tick index 1) it allocates 1048576 bytes, while the
stateless contract baselineBytes + delta(phase) demands
1048576 + 1048576 = 2097152 bytes.  The allocation target therefore
accumulates deltas from prior ticks instead of restarting from the
baseline. -/
theorem C1_memory_loop_accumulates_deltas :
    Load.getVarianceFuncByName (Load.NewNodeGenerator 0 0 1 100 "linear" 1) =
      Load.VarianceChoice.linear ∧
    Load.allocAt Load.varianceLinear (Load.NewNodeGenerator 0 0 1 100 "linear" 1) 0 = 0 ∧
    Load.allocAt Load.varianceLinear (Load.NewNodeGenerator 0 0 1 100 "linear" 1) 1 = 1048576 ∧
    (Load.NewNodeGenerator 0 0 1 100 "linear" 1).state.baselineBytes +
      Load.varianceLinear
        (Load.memoryLoopState Load.varianceLinear (Load.NewNodeGenerator 0 0 1 100 "linear" 1) 1) =
      2097152 ∧
    (1048576 : ℤ) ≠ 2097152 := by
  have htp : Load.ticksPerPeriodOf 1 = 2 := by decide
  have htm : Int.tmod 1 2 = 1 := by decide
  refine ⟨by decide, ?_, ?_, ?_, by decide⟩
  · norm_num [Load.allocAt, Load.memoryLoopState, Load.memoryLoopStep, Load.tick,
      Load.varianceLinear, Load.linearX, Load.NewNodeGenerator, htp, htm,
      truncToInt, Int.ceil_neg]
  · norm_num [Load.allocAt, Load.memoryLoopState, Load.memoryLoopStep, Load.tick,
      Load.varianceLinear, Load.linearX, Load.NewNodeGenerator, htp, htm,
      truncToInt, Int.ceil_neg]
  · norm_num [Load.memoryLoopState, Load.memoryLoopStep, Load.tick,
      Load.varianceLinear, Load.linearX, Load.NewNodeGenerator, htp, htm,
      truncToInt, Int.ceil_neg]

/-- C2 counterexample: with core count 0 Generate() starts only the memory
loop (one loop), yet the stop handle delivers two signals, not one. -/
theorem C2_cex_two_signals_for_one_loop :
    Load.loopsStarted 0 = 1 ∧ Load.stopSignalsSent = 2 ∧
    Load.stopSignalsSent ≠ Load.loopsStarted 0 := by
  refine ⟨?_, rfl, ?_⟩ <;> norm_num [Load.loopsStarted, Load.stopSignalsSent]

/-- C2 amended: the stop handle always delivers exactly two signals: one
more than the loops started when the configured core count is 0, and
exactly as many as the loops started otherwise; in either case the count
of loops started never exceeds the channel capacity, so the surplus signal
rests in the buffer and the invocation does not block. -/
theorem C2_amended_handle_always_sends_two :
    ∀ cores : ℚ,
      Load.stopSignalsSent =
        (if cores = 0 then Load.loopsStarted cores + 1 else Load.loopsStarted cores) ∧
      Load.loopsStarted cores ≤ Load.finishedChanCap := by
  intro cores
  by_cases h : cores = 0 <;>
    simp [Load.stopSignalsSent, Load.loopsStarted, Load.finishedChanCap, h]

/-- C5 counterexample: reading the configured value as a duty-cycle
fraction in [0,1] contradicts the code: at configured value 1 the busy-wait
is 1000 microseconds, not unitInterval * 1 = 100000 microseconds. -/
theorem C5_cex_fraction_reading_contradicts_code :
    Load.runMicrosecond 1 = 1000 ∧
    Load.unitIntervalMicrosecond * 1 = 100000 ∧ (1000 : ℚ) ≠ 100000 := by
  refine ⟨?_, ?_, ?_⟩ <;>
    norm_num [Load.runMicrosecond, Load.unitHundredsOfMicrosecond, Load.unitIntervalMicrosecond]

/-- C5 amended: each CPU duty-cycle worker busy-waits for
runDuration = unitInterval * (cpuPercentage/100) and then suspends for
sleepDuration = unitInterval - runDuration, where unitInterval is fixed at
100 ms = 100000 microseconds and cpuPercentage is the configured duty-cycle
percentage in [0,100] (a percentage, not a fraction in [0,1]; the fraction
is cpuPercentage/100). -/
theorem C5_amended_duty_cycle_uses_percentage :
    ∀ pct : ℚ, 0 ≤ pct → pct ≤ 100 →
      Load.runMicrosecond pct = Load.unitIntervalMicrosecond * (pct / 100) ∧
      Load.sleepMicrosecond pct = Load.unitIntervalMicrosecond - Load.runMicrosecond pct ∧
      0 ≤ pct / 100 ∧ pct / 100 ≤ 1 := by
  intro pct h0 h1
  refine ⟨?_, ?_, ?_, ?_⟩
  · unfold Load.runMicrosecond Load.unitIntervalMicrosecond Load.unitHundredsOfMicrosecond
    ring
  · unfold Load.sleepMicrosecond Load.runMicrosecond Load.unitIntervalMicrosecond
      Load.unitHundredsOfMicrosecond
    ring
  · exact div_nonneg h0 (by norm_num)
  · linarith

/-- C5 witness at cpuPercentage = 25: run = 100000 * (25/100) microseconds
and sleep = 100000 - run. -/
theorem C5_amended_duty_cycle_uses_percentage_witness :
    (0 : ℚ) ≤ 25 ∧ (25 : ℚ) ≤ 100 ∧
      (Load.runMicrosecond 25 = Load.unitIntervalMicrosecond * (25 / 100) ∧
        Load.sleepMicrosecond 25 = Load.unitIntervalMicrosecond - Load.runMicrosecond 25 ∧
        0 ≤ (25 : ℚ) / 100 ∧ (25 : ℚ) / 100 ≤ 1) :=
  ⟨by norm_num, by norm_num,
    C5_amended_duty_cycle_uses_percentage 25 (by norm_num) (by norm_num)⟩

/-- C7: on the error-free path the handler returns success, sleeps exactly
remaining = d - et when that is positive, and sleeps nothing (returning
immediately, still successfully) when remaining is not positive. -/
theorem C7_duration_budget_controller :
    ∀ d et : ℤ,
      (Handlers.Handle none none d et).result = Handlers.GrpcResult.success ∧
      (0 < d - et → (Handlers.Handle none none d et).sleptNanos = d - et) ∧
      (d - et ≤ 0 → (Handlers.Handle none none d et).sleptNanos = 0) := by
  intro d et
  refine ⟨rfl, ?_, ?_⟩
  · intro h
    show (if 0 < d - et then d - et else 0) = d - et
    rw [if_pos h]
  · intro h
    show (if 0 < d - et then d - et else 0) = 0
    rw [if_neg (not_lt.mpr h)]

/-- C8: the completion channel capacity (2) is at least the number of loops
started for every core count, and on any trace of the freshly made channel
in which fewer sends have happened than the handle will make in total (2),
the buffer is below capacity, so each of the handle's sends completes
without blocking no matter how many receives the loops have interleaved. -/
theorem C8_stop_handle_sends_never_block :
    (∀ cores : ℚ, Load.loopsStarted cores ≤ Load.finishedChanCap) ∧
    (∀ ops : List Load.ChanOp,
      Load.sendCount ops < Load.stopSignalsSent →
        Load.bufAfter ops < Load.finishedChanCap) := by
  constructor
  · intro cores
    by_cases h : cores = 0 <;> simp [Load.loopsStarted, Load.finishedChanCap, h]
  · intro ops h
    have hb := bufFrom_le_sendCount ops 0
    have h2 : Load.sendCount ops < 2 := h
    have hcap : Load.finishedChanCap = 2 := rfl
    unfold Load.bufAfter
    omega

/-- C10: with a non-nil aggregate upstream error the handler returns the
upstream failure immediately after the fan-out and performs no
duration-budget sleep at all. -/
theorem C10_upstream_error_skips_budget_sleep :
    ∀ (msg : String) (d et : ℤ),
      Handlers.Handle none (some msg) d et =
        { result := Handlers.GrpcResult.upstreamFailure msg, sleptNanos := 0 } := by
  intro msg d et
  rfl

/-- C3: in both generator variants, a configuration with variance
percentage 0, or with a model name that is none of linear, random, sine
(the empty string included), selects a function whose delta is exactly 0
for every phase state and every random draw.  In the part_000 registry the
selected function is varianceZero; in the older node_generator.go registry
the selected function returns currentMemory unchanged, a zero delta. -/
theorem C3_zero_or_unknown_variance_selects_zero_delta :
    ∀ (g : Load.NodeGenerator) (og : LoadV1.NodeGenerator),
      (g.memoryVariance = 0 ∨
        (g.memoryVarianceFun ≠ "linear" ∧ g.memoryVarianceFun ≠ "random" ∧
          g.memoryVarianceFun ≠ "sine")) →
      (og.memoryVariance = 0 ∨
        (og.memoryVarianceFun ≠ "linear" ∧ og.memoryVarianceFun ≠ "random" ∧
          og.memoryVarianceFun ≠ "sine")) →
      (∀ (coin : Fin 2) (u : ℚ),
        Load.applyVariance (Load.getVarianceFuncByName g) g coin u = 0) ∧
      (∀ u : ℚ,
        (LoadV1.applyVariance (LoadV1.getVarianceFuncByName og.memoryVarianceFun) og u).1 -
          og.currentMemory = 0) := by
  intro g og hg hog
  constructor
  · intro coin u
    unfold Load.getVarianceFuncByName
    rcases hg with h0 | ⟨h1, h2, h3⟩
    · rw [if_pos h0]; rfl
    · by_cases h0 : g.memoryVariance = 0
      · rw [if_pos h0]; rfl
      · rw [if_neg h0, if_neg h1, if_neg h2, if_neg h3]; rfl
  · intro u
    unfold LoadV1.getVarianceFuncByName
    rcases hog with h0 | ⟨h1, h2, h3⟩
    · have hv : ¬ (0 < og.memoryVariance) := by omega
      by_cases e1 : og.memoryVarianceFun = "linear"
      · rw [if_pos e1]; simp [LoadV1.applyVariance, LoadV1.varianceLinear]
      · rw [if_neg e1]
        by_cases e2 : og.memoryVarianceFun = "random"
        · rw [if_pos e2]; simp [LoadV1.applyVariance, LoadV1.varianceRandom, hv]
        · rw [if_neg e2]
          by_cases e3 : og.memoryVarianceFun = "sine"
          · rw [if_pos e3]; simp [LoadV1.applyVariance, LoadV1.varianceSineWave, hv]
          · rw [if_neg e3]; simp [LoadV1.applyVariance, LoadV1.varianceLinear]
    · rw [if_neg h1, if_neg h2, if_neg h3]
      simp [LoadV1.applyVariance, LoadV1.varianceLinear]

/-- C3 witness: variance percentage 0 with model name random (part_000
variant), and the unrecognized model name wobble (older variant). -/
theorem C3_zero_or_unknown_variance_selects_zero_delta_witness :
    Load.applyVariance
        (Load.getVarianceFuncByName (Load.NewNodeGenerator 0 0 1 0 "random" 1))
        (Load.NewNodeGenerator 0 0 1 0 "random" 1) 0 (1 / 2) = 0 ∧
    (LoadV1.applyVariance (LoadV1.getVarianceFuncByName "wobble")
        { cpuCoresCount := 0, cpuPercentage := 0, memoryMBytes := 1, memoryVariance := 5,
          memoryVarianceFun := "wobble", memoryVariancePeriod := 1, running := false,
          currentMemory := 1048576, currentTick := 0 } (1 / 2)).1 - 1048576 = 0 := by
  have h := C3_zero_or_unknown_variance_selects_zero_delta
    (Load.NewNodeGenerator 0 0 1 0 "random" 1)
    { cpuCoresCount := 0, cpuPercentage := 0, memoryMBytes := 1, memoryVariance := 5,
      memoryVarianceFun := "wobble", memoryVariancePeriod := 1, running := false,
      currentMemory := 1048576, currentTick := 0 }
    (Or.inl rfl) (Or.inr ⟨by decide, by decide, by decide⟩)
  exact ⟨h.1 0 (1 / 2), h.2 (1 / 2)⟩

/-- C9 amended: provided maxVarianceBytes is positive, the random model's
delta lies strictly within (-maxVarianceBytes, +maxVarianceBytes) for every
coin flip and every uniform draw u in [0,1); when maxVarianceBytes = 0
(possible with a zero memory baseline and nonzero variance percent) the
delta is 0 and attains both bounds, so the strict claim needs the
positivity hypothesis. -/
theorem C9_amended_random_delta_strictly_inside :
    ∀ (g : Load.NodeGenerator) (coin : Fin 2) (u : ℚ),
      0 ≤ u → u < 1 → 0 < g.state.maxVarianceBytes →
      -g.state.maxVarianceBytes < ((Load.varianceRandom g coin u : ℤ) : ℚ) ∧
      ((Load.varianceRandom g coin u : ℤ) : ℚ) < g.state.maxVarianceBytes := by
  intro g coin u hu0 hu1 hm
  have habs : |Load.copysign u (((coin : ℕ) : ℚ) * (-1))| = |u| := by
    unfold Load.copysign
    split <;> simp
  have habs2 :
      |Load.copysign u (((coin : ℕ) : ℚ) * (-1)) * g.state.maxVarianceBytes| <
        g.state.maxVarianceBytes := by
    rw [abs_mul, habs, abs_of_nonneg hu0, abs_of_pos hm]
    calc u * g.state.maxVarianceBytes < 1 * g.state.maxVarianceBytes :=
          mul_lt_mul_of_pos_right hu1 hm
      _ = g.state.maxVarianceBytes := one_mul _
  obtain ⟨hlo, hhi⟩ := abs_lt.mp habs2
  unfold Load.varianceRandom
  exact truncToInt_mem_Ioo hm hlo hhi

/-- C9 witness at 1 MiB baseline, 100 percent variance (maxVarianceBytes =
1048576), coin = 1, draw u = 1/2. -/
theorem C9_amended_random_delta_strictly_inside_witness :
    (0 : ℚ) ≤ 1 / 2 ∧ (1 / 2 : ℚ) < 1 ∧
      0 < (Load.NewNodeGenerator 0 0 1 100 "random" 1).state.maxVarianceBytes ∧
      (-(Load.NewNodeGenerator 0 0 1 100 "random" 1).state.maxVarianceBytes <
          ((Load.varianceRandom (Load.NewNodeGenerator 0 0 1 100 "random" 1) 1 (1 / 2) : ℤ) : ℚ) ∧
        ((Load.varianceRandom (Load.NewNodeGenerator 0 0 1 100 "random" 1) 1 (1 / 2) : ℤ) : ℚ) <
          (Load.NewNodeGenerator 0 0 1 100 "random" 1).state.maxVarianceBytes) :=
  ⟨by norm_num, by norm_num, by norm_num [Load.NewNodeGenerator],
    C9_amended_random_delta_strictly_inside (Load.NewNodeGenerator 0 0 1 100 "random" 1) 1
      (1 / 2) (by norm_num) (by norm_num) (by norm_num [Load.NewNodeGenerator])⟩

/-- C9 counterexample: a configuration with memoryMBytes = 0 and variance
percent 50 selects the random model yet has maxVarianceBytes = 0; at draw
u = 0 the delta is 0, which is not strictly greater than
-maxVarianceBytes = 0, refuting the claim as stated. -/
theorem C9_cex_zero_max_variance_attains_bound :
    Load.getVarianceFuncByName (Load.NewNodeGenerator 0 0 0 50 "random" 1) =
      Load.VarianceChoice.random ∧
    Load.varianceRandom (Load.NewNodeGenerator 0 0 0 50 "random" 1) 0 0 = 0 ∧
    ¬(-(Load.NewNodeGenerator 0 0 0 50 "random" 1).state.maxVarianceBytes <
        ((Load.varianceRandom (Load.NewNodeGenerator 0 0 0 50 "random" 1) 0 0 : ℤ) : ℚ)) := by
  refine ⟨by decide, ?_, ?_⟩
  · norm_num [Load.varianceRandom, Load.copysign, Load.NewNodeGenerator, truncToInt]
  · norm_num [Load.varianceRandom, Load.copysign, Load.NewNodeGenerator, truncToInt]

/-- C4 amended: for every generator state with ticksPerPeriod at least 2, a
nonnegative maxVarianceBytes and a tick in [0, ticksPerPeriod), the linear
delta computed from linearX = currentTick / (ticksPerPeriod - 1) lies in
[-maxVarianceBytes, +maxVarianceBytes]; at tick 0 it equals the truncation
toward zero of -maxVarianceBytes (that is, -floor maxVarianceBytes), and at
tick ticksPerPeriod - 1 it equals floor maxVarianceBytes.  These equal the
exact extremes only when maxVarianceBytes is an integer, because the float
lVal is converted to int by truncation. -/
theorem C4_amended_linear_bounds_and_truncated_extremes :
    ∀ g : Load.NodeGenerator,
      2 ≤ g.state.ticksPerPeriod →
      0 ≤ g.state.maxVarianceBytes →
      0 ≤ g.state.currentTick →
      g.state.currentTick < g.state.ticksPerPeriod →
      (-g.state.maxVarianceBytes ≤ ((Load.varianceLinear g : ℤ) : ℚ) ∧
        ((Load.varianceLinear g : ℤ) : ℚ) ≤ g.state.maxVarianceBytes) ∧
      (g.state.currentTick = 0 →
        Load.varianceLinear g = -⌊g.state.maxVarianceBytes⌋) ∧
      (g.state.currentTick = g.state.ticksPerPeriod - 1 →
        Load.varianceLinear g = ⌊g.state.maxVarianceBytes⌋) := by
  intro g h2 hm h0 hlt
  have hden : (1 : ℚ) ≤ ((g.state.ticksPerPeriod - 1 : ℤ) : ℚ) := by
    exact_mod_cast (by omega : (1 : ℤ) ≤ g.state.ticksPerPeriod - 1)
  have hdenpos : (0 : ℚ) < ((g.state.ticksPerPeriod - 1 : ℤ) : ℚ) := by linarith
  have hx0 : 0 ≤ Load.linearX g := by
    unfold Load.linearX
    exact div_nonneg (by exact_mod_cast h0) (le_of_lt hdenpos)
  have hx1 : Load.linearX g ≤ 1 := by
    unfold Load.linearX
    rw [div_le_one hdenpos]
    exact_mod_cast (by omega : g.state.currentTick ≤ g.state.ticksPerPeriod - 1)
  have k1 : 0 ≤ Load.linearX g * g.state.maxVarianceBytes := mul_nonneg hx0 hm
  have k2 : Load.linearX g * g.state.maxVarianceBytes ≤ g.state.maxVarianceBytes :=
    mul_le_of_le_one_left hm hx1
  refine ⟨?_, ?_, ?_⟩
  · unfold Load.varianceLinear
    refine truncToInt_mem_Icc hm ?_ ?_ <;> linarith
  · intro ht0
    unfold Load.varianceLinear Load.linearX
    rw [ht0]
    norm_num
    exact truncToInt_neg_eq hm
  · intro htend
    unfold Load.varianceLinear Load.linearX
    rw [htend, div_self (ne_of_gt hdenpos),
      show (2 * (1 : ℚ) * g.state.maxVarianceBytes - g.state.maxVarianceBytes) =
        g.state.maxVarianceBytes from by ring]
    exact truncToInt_eq_floor hm

/-- C4 witness at 1 MiB baseline, 1 percent variance, 1 second period
(ticksPerPeriod = 2, maxVarianceBytes = 10485.76, currentTick = 0). -/
theorem C4_amended_linear_bounds_witness :
    2 ≤ (Load.NewNodeGenerator 0 0 1 1 "linear" 1).state.ticksPerPeriod ∧
    0 ≤ (Load.NewNodeGenerator 0 0 1 1 "linear" 1).state.maxVarianceBytes ∧
    (-(Load.NewNodeGenerator 0 0 1 1 "linear" 1).state.maxVarianceBytes ≤
        ((Load.varianceLinear (Load.NewNodeGenerator 0 0 1 1 "linear" 1) : ℤ) : ℚ) ∧
      ((Load.varianceLinear (Load.NewNodeGenerator 0 0 1 1 "linear" 1) : ℤ) : ℚ) ≤
        (Load.NewNodeGenerator 0 0 1 1 "linear" 1).state.maxVarianceBytes) :=
  ⟨by decide, by norm_num [Load.NewNodeGenerator],
    (C4_amended_linear_bounds_and_truncated_extremes
      (Load.NewNodeGenerator 0 0 1 1 "linear" 1) (by decide)
      (by norm_num [Load.NewNodeGenerator]) (by decide) (by decide)).1⟩

/-- C4 counterexample: with 1 MiB baseline and 1 percent variance,
maxVarianceBytes = 1048576/100 = 10485.76 is not an integer; at tick 0 the
delta is the truncation -10485, which is not exactly -maxVarianceBytes, so
the claim's exact-extreme statement fails. -/
theorem C4_cex_extreme_not_exact_for_fractional_max :
    Load.varianceLinear (Load.NewNodeGenerator 0 0 1 1 "linear" 1) = -10485 ∧
    (Load.NewNodeGenerator 0 0 1 1 "linear" 1).state.currentTick = 0 ∧
    ((Load.varianceLinear (Load.NewNodeGenerator 0 0 1 1 "linear" 1) : ℤ) : ℚ) ≠
      -(Load.NewNodeGenerator 0 0 1 1 "linear" 1).state.maxVarianceBytes := by
  have heval : Load.varianceLinear (Load.NewNodeGenerator 0 0 1 1 "linear" 1) = -10485 := by
    norm_num [Load.varianceLinear, Load.linearX, Load.NewNodeGenerator, Load.ticksPerPeriodOf,
      int64wrap, Load.TICK_INTERVAL, truncToInt, Int.ceil_neg]
  refine ⟨heval, by decide, ?_⟩
  rw [heval]
  norm_num [Load.NewNodeGenerator]

/-- C6 counterexample: the construction has no minimum clamp on
ticksPerPeriod: a variance period of 0 seconds yields ticksPerPeriod = 0,
not at least 2. -/
theorem C6_cex_period_zero_gives_zero_ticks :
    (Load.NewNodeGenerator 0 0 1 10 "linear" 0).state.ticksPerPeriod = 0 ∧
    ¬(2 ≤ (Load.NewNodeGenerator 0 0 1 10 "linear" 0).state.ticksPerPeriod) := by
  exact ⟨by decide, by decide⟩

/-- C6 amended: for every generator constructed with a variance period of
at least 1 second (and at most 10^9, so the int64 nanosecond arithmetic
does not wrap), ticksPerPeriod = 2 * period is at least 2; after any
number of memory-loop iterations (for any delta function) currentTick
equals the iteration count modulo ticksPerPeriod, so the invariant
0 <= currentTick < ticksPerPeriod holds at all times and currentTick
advances by exactly one, modulo ticksPerPeriod, per iteration.  The code
itself has no minimum-2 clamp: period 0 gives ticksPerPeriod 0. -/
theorem C6_amended_phase_invariant_for_positive_period :
    ∀ (cores pct : ℚ) (m v : ℤ) (fn : String) (p : ℤ)
      (delta : Load.NodeGenerator → ℤ) (n : ℕ),
      1 ≤ p → p ≤ 1000000000 →
      (Load.NewNodeGenerator cores pct m v fn p).state.ticksPerPeriod = 2 * p ∧
      2 ≤ (Load.NewNodeGenerator cores pct m v fn p).state.ticksPerPeriod ∧
      (Load.memoryLoopState delta (Load.NewNodeGenerator cores pct m v fn p) n).state.currentTick =
        (n : ℤ) % (2 * p) ∧
      0 ≤ (Load.memoryLoopState delta (Load.NewNodeGenerator cores pct m v fn p) n).state.currentTick ∧
      (Load.memoryLoopState delta (Load.NewNodeGenerator cores pct m v fn p) n).state.currentTick <
        (Load.memoryLoopState delta (Load.NewNodeGenerator cores pct m v fn p) n).state.ticksPerPeriod := by
  intro cores pct m v fn p delta n h1 h2
  have hp64 : int64wrap p = p := by
    unfold int64wrap
    rw [Int.emod_eq_of_lt (by omega) (by omega)]
    omega
  have hq64 : int64wrap (p * 1000000000) = p * 1000000000 := by
    unfold int64wrap
    rw [Int.emod_eq_of_lt (by omega) (by omega)]
    omega
  have htp : Load.ticksPerPeriodOf p = 2 * p := by
    unfold Load.ticksPerPeriodOf Load.TICK_INTERVAL
    rw [hp64, hq64, show p * 1000000000 = 500000000 * (2 * p) from by ring]
    exact Int.mul_tdiv_cancel_left _ (by norm_num)
  have hpos : (0 : ℤ) < 2 * p := by omega
  have key : ∀ k : ℕ,
      (Load.memoryLoopState delta (Load.NewNodeGenerator cores pct m v fn p) k).state.ticksPerPeriod =
        2 * p ∧
      (Load.memoryLoopState delta (Load.NewNodeGenerator cores pct m v fn p) k).state.currentTick =
        (k : ℤ) % (2 * p) := by
    intro k
    induction k with
    | zero =>
      refine ⟨?_, ?_⟩
      · simp [Load.memoryLoopState, Load.NewNodeGenerator, htp]
      · simp [Load.memoryLoopState, Load.NewNodeGenerator]
    | succ k ih =>
      obtain ⟨ihtp, ihct⟩ := ih
      refine ⟨?_, ?_⟩
      · simp [Load.memoryLoopState, Load.memoryLoopStep, Load.tick, ihtp]
      · simp only [Load.memoryLoopState, Load.memoryLoopStep, Load.tick]
        have hnn : 0 ≤ (k : ℤ) % (2 * p) := Int.emod_nonneg _ (by omega)
        simp only [ihtp, ihct]
        rw [Int.tmod_eq_emod (by omega) (by omega)]
        push_cast
        rw [Int.emod_add_emod]
  obtain ⟨ktp, kct⟩ := key n
  refine ⟨?_, ?_, kct, ?_, ?_⟩
  · simpa [Load.NewNodeGenerator] using htp
  · have : (Load.NewNodeGenerator cores pct m v fn p).state.ticksPerPeriod = 2 * p := by
      simpa [Load.NewNodeGenerator] using htp
    omega
  · rw [kct]
    exact Int.emod_nonneg _ (by omega)
  · rw [kct, ktp]
    exact Int.emod_lt_of_pos _ hpos

/-- C6 witness at period 5 seconds after 7 iterations: currentTick is
7 mod 10. -/
theorem C6_amended_phase_invariant_for_positive_period_witness :
    (1 : ℤ) ≤ 5 ∧ (5 : ℤ) ≤ 1000000000 ∧
      (Load.memoryLoopState (fun _ => 0) (Load.NewNodeGenerator 0 0 1 10 "sine" 5) 7).state.currentTick =
        ((7 : ℕ) : ℤ) % (2 * 5) :=
  ⟨by decide, by decide,
    (C6_amended_phase_invariant_for_positive_period 0 0 1 10 "sine" 5 (fun _ => 0) 7
      (by decide) (by decide)).2.2.1⟩
